import Mathlib

/-!
Shallow embedding of the rc-stickynote hub's connection-and-broadcast
protocol engine, translated from `src/protocol/src/lib.rs` and
`src/hub/src/main.rs`.

Modelling conventions:
* Rust `String` becomes Lean `String`; Rust `str::len()` is the UTF-8 byte
  length, which is `String.utf8ByteSize` in Lean.
* `chrono::DateTime<Utc>` timestamps are modelled as abstract integers;
  `chrono::Utc::now()` becomes an explicit `now` parameter.
* The tokio broadcast channel is modelled by its subscriber count:
  `Sender::send` succeeds and delivers the value to the subscribers exactly
  when the subscriber count is positive, and fails (dropping the value)
  when it is zero.
* The per-connection async task `handle_new_stickyproto_connection` becomes
  a function of its observable inputs: the outcome of the first frame read,
  the subscriber count at publish time, the seed `DisplayMessage` snapshot,
  and a finite trace of displayer-loop events (each select-branch outcome
  paired with whether the subsequent socket write succeeds).  The function
  returns the connection's observable outcome record.
-/

namespace RcStickynote

/-- Timestamps (`chrono::DateTime<chrono::Utc>` in the source) are abstract
instants; only equality and propagation matter to the hub core. -/
abbrev Timestamp := Int

/-- Embeds `DisplayMessage` from `src/protocol/src/lib.rs`: the broadcastable
snapshot of the current status text and its last-update instant. -/
structure DisplayMessage where
  person_is : String
  person_is_timestamp : Timestamp
deriving Repr, DecidableEq

/-- Embeds `impl Default for DisplayMessage` from `src/protocol/src/lib.rs`:
the startup value is the string "whereabouts unknown" stamped with the
current time, which the embedding takes as the explicit argument `now`. -/
def DisplayMessage.default (now : Timestamp) : DisplayMessage :=
  { person_is := "whereabouts unknown", person_is_timestamp := now }

/-- Embeds `DisplayHelloMessage` from `src/protocol/src/lib.rs`: the empty
payload of a displayer client's hello. -/
structure DisplayHelloMessage where
deriving Repr, DecidableEq

/-- Embeds `PersonIsUpdateHelloMessage` from `src/protocol/src/lib.rs`: the
payload of an updater client's hello. -/
structure PersonIsUpdateHelloMessage where
  person_is : String
  timestamp : Timestamp
deriving Repr, DecidableEq

/-- Embeds the `ClientHelloMessage` tagged union from
`src/protocol/src/lib.rs`. -/
inductive ClientHelloMessage where
  | Display (msg : DisplayHelloMessage)
  | PersonIsUpdate (msg : PersonIsUpdateHelloMessage)
deriving Repr, DecidableEq

/-- Embeds `is_person_is_valid` from `src/protocol/src/lib.rs`: the status
text is valid exactly when its raw byte length (`str::len()` in Rust, the
UTF-8 byte size) is under 23. -/
def is_person_is_valid (person_is : String) : Bool :=
  person_is.utf8ByteSize < 23

/-- Embeds the `DisplayStateMutation` enum from `src/hub/src/main.rs`: the
internal event broadcast from publishers to every subscriber. -/
inductive DisplayStateMutation where
  | SetPersonIs (msg : PersonIsUpdateHelloMessage)
deriving Repr, DecidableEq

/-- Embeds `DisplayStateMutation::consume_into` from `src/hub/src/main.rs`:
applying a `SetPersonIs` mutation overwrites both the `person_is` text and
the `person_is_timestamp` of the state. -/
def DisplayStateMutation.consume_into : DisplayStateMutation → DisplayMessage → DisplayMessage
  | .SetPersonIs msg, state =>
      { state with person_is := msg.person_is, person_is_timestamp := msg.timestamp }

/-- Outcome of `jsonread.next().await` on the first frame of a connection,
from `src/hub/src/main.rs`: a decoded hello (`Some(Ok(h))`), a decode or
stream error (`Some(Err(err))`), or end-of-stream before any frame
(`None`). -/
inductive ReadOutcome where
  | frame (hello : ClientHelloMessage)
  | decodeError (err : String)
  | eof
deriving Repr, DecidableEq

/-- Final status of a connection task: returned `Ok(())`, returned an
error, or (for a displayer whose trace has not failed) still looping. -/
inductive ConnStatus where
  | closedOk
  | closedErr (msg : String)
  | running
deriving Repr, DecidableEq

/-- One iteration's select-branch outcome inside the displayer loop of
`src/hub/src/main.rs`: the heartbeat interval tick, a successfully received
mutation, a broadcast-lag error (`Some(Err(err))`), or the subscription
stream ending (`None`). -/
inductive LoopEvent where
  | tick
  | recvOk (m : DisplayStateMutation)
  | recvLag
  | recvClosed
deriving Repr, DecidableEq

/-- Effect of one displayer-loop select branch on the private replica, from
the `select!` block of the displayer loop in `src/hub/src/main.rs`: only a
successfully received mutation changes the replica (via `consume_into`);
a tick, a lag error, or a closed subscription leave it unchanged (the code
only logs). -/
def loopIterState (st : DisplayMessage) : LoopEvent → DisplayMessage
  | .tick => st
  | .recvOk m => m.consume_into st
  | .recvLag => st
  | .recvClosed => st

/-- Observable result of running the displayer loop over a finite event
trace: the frames written to the client, the final private replica, and
whether the loop broke out with a write error. -/
structure LoopResult where
  sentFrames : List DisplayMessage
  replica : DisplayMessage
  writeErrored : Bool
deriving Repr, DecidableEq

/-- Embeds the displayer send loop of `handle_new_stickyproto_connection`
(`src/hub/src/main.rs`): each iteration races the heartbeat tick against
the broadcast subscription, updates the replica accordingly, then
unconditionally writes the current replica to the client; a write failure
breaks the loop with an error. The trace pairs each select outcome with
whether the subsequent `jsonwrite.send` succeeds. -/
def displayerLoop : DisplayMessage → List (LoopEvent × Bool) → LoopResult
  | st, [] => { sentFrames := [], replica := st, writeErrored := false }
  | st, (ev, writeOk) :: rest =>
      let st' := loopIterState st ev
      if writeOk then
        let r := displayerLoop st' rest
        { r with sentFrames := st' :: r.sentFrames }
      else
        { sentFrames := [], replica := st', writeErrored := true }

/-- Observable outcome of one whole connection task: the mutations passed
to `send_updates.send` (publish attempts), the mutations the broadcast
channel actually delivered to subscribers, the task's final status, whether
it entered the displayer send loop, and the `DisplayMessage` frames it
wrote to the client. -/
structure ConnOutcome where
  publishAttempts : List DisplayStateMutation
  delivered : List DisplayStateMutation
  status : ConnStatus
  enteredDisplayerLoop : Bool
  sentFrames : List DisplayMessage
deriving Repr, DecidableEq

/-- Embeds `handle_new_stickyproto_connection` from `src/hub/src/main.rs`.
A decode error or EOF on the first frame fails the connection with no
mutation. A `PersonIsUpdate` hello is validated with `is_person_is_valid`;
an invalid one fails the connection with no mutation, a valid one is sent
onto the broadcast channel exactly once (delivery succeeds exactly when
some subscriber exists) and the task returns. A `Display` hello enters the
displayer send loop with the seed snapshot `display_state`. -/
def handle_new_stickyproto_connection
    (firstRead : ReadOutcome) (subscriberCount : Nat)
    (display_state : DisplayMessage)
    (loopTrace : List (LoopEvent × Bool)) : ConnOutcome :=
  match firstRead with
  | .decodeError err =>
      { publishAttempts := [], delivered := [], status := .closedErr err,
        enteredDisplayerLoop := false, sentFrames := [] }
  | .eof =>
      { publishAttempts := [], delivered := [],
        status := .closedErr "connection dropped before hello?",
        enteredDisplayerLoop := false, sentFrames := [] }
  | .frame (.PersonIsUpdate msg) =>
      if ¬ is_person_is_valid msg.person_is then
        { publishAttempts := [], delivered := [],
          status := .closedErr "PersonIsUpdate message didn\x27t validate; ignoring",
          enteredDisplayerLoop := false, sentFrames := [] }
      else if 0 < subscriberCount then
        { publishAttempts := [.SetPersonIs msg], delivered := [.SetPersonIs msg],
          status := .closedOk, enteredDisplayerLoop := false, sentFrames := [] }
      else
        { publishAttempts := [.SetPersonIs msg], delivered := [],
          status := .closedErr "no receivers for thread update?",
          enteredDisplayerLoop := false, sentFrames := [] }
  | .frame (.Display _) =>
      let r := displayerLoop display_state loopTrace
      { publishAttempts := [], delivered := [],
        status := if r.writeErrored then .closedErr "error communicating with client" else .running,
        enteredDisplayerLoop := true, sentFrames := r.sentFrames }

/-- Embeds the mutation-servicing arm of the listener loop in
`ServeCommand::cli` (`src/hub/src/main.rs`): each mutation received on the
loop's own subscription is applied to its authoritative copy via
`consume_into`. -/
def listenerApply (state : DisplayMessage) (m : DisplayStateMutation) : DisplayMessage :=
  m.consume_into state

/-- The listener loop's authoritative `DisplayMessage` after it has applied
the given mutations, in order, to the startup default (`ServeCommand::cli`
initializes `display_state` with `DisplayMessage::default()`). -/
def listenerState (now : Timestamp) (muts : List DisplayStateMutation) : DisplayMessage :=
  List.foldl listenerApply (DisplayMessage.default now) muts

/-- Outcome of the webhook publish tail: the early exits distinguish
irrelevant events from errors; success publishes. -/
inductive WebhookOutcome where
  | irrelevant (why : String)
  | error (why : String)
  | ok
deriving Repr, DecidableEq

/-- Publish attempts and deliveries of a hub-side publisher, with its
outcome. -/
structure WebhookPublishResult where
  publishAttempts : List DisplayStateMutation
  delivered : List DisplayStateMutation
  outcome : WebhookOutcome
deriving Repr, DecidableEq

/-- Embeds the tail of `handle_twitter_webhook_post::inner`
(`src/hub/src/main.rs`, after the DM text and timestamp have been
extracted): the text is validated with `is_person_is_valid`; an invalid
text exits as irrelevant with no publish, a valid one is sent onto the
broadcast channel once (delivered exactly when a subscriber exists, an
error otherwise). -/
def webhook_publish_text (person_is : String) (timestamp : Timestamp)
    (subscriberCount : Nat) : WebhookPublishResult :=
  if ¬ is_person_is_valid person_is then
    { publishAttempts := [], delivered := [],
      outcome := .irrelevant "update text doesn't validate" }
  else if 0 < subscriberCount then
    { publishAttempts := [.SetPersonIs { person_is := person_is, timestamp := timestamp }],
      delivered := [.SetPersonIs { person_is := person_is, timestamp := timestamp }],
      outcome := .ok }
  else
    { publishAttempts := [.SetPersonIs { person_is := person_is, timestamp := timestamp }],
      delivered := [],
      outcome := .error "cannot send display state mutation!" }

/-- A mutation counts as published by the hub when some connection handler
invocation or some webhook invocation delivered it onto the broadcast
channel. -/
def HubPublished (m : DisplayStateMutation) : Prop :=
  (∃ firstRead subscriberCount display_state loopTrace,
      m ∈ (handle_new_stickyproto_connection firstRead subscriberCount
            display_state loopTrace).delivered) ∨
  (∃ person_is timestamp subscriberCount,
      m ∈ (webhook_publish_text person_is timestamp subscriberCount).delivered)

/-- The snapshot sequence the spec's §4.3 and §5 prescribe for a displayer
connection: after each loop event the current private replica, in the
order the replica was updated or heartbeat-ticked. Stated from the spec's
words, to be compared with the `displayerLoop` embedding of the source. -/
def snapshotsInUpdateOrder (st : DisplayMessage) : List LoopEvent → List DisplayMessage
  | [] => []
  | ev :: rest => loopIterState st ev :: snapshotsInUpdateOrder (loopIterState st ev) rest

/- Theorems -/

/-- C1: for every string `text`, `is_person_is_valid text` returns true if
and only if the UTF-8 byte length of `text` is strictly less than 23; in
particular a string of exactly 22 bytes is valid and a string of exactly 23
bytes is invalid. -/
theorem C1_person_is_valid_iff_byte_length_lt_23 :
    (∀ text : String, is_person_is_valid text = true ↔ text.utf8ByteSize < 23) ∧
    is_person_is_valid "aaaaaaaaaaaaaaaaaaaaaa" = true ∧
    is_person_is_valid "aaaaaaaaaaaaaaaaaaaaaaa" = false := by
  refine ⟨fun text => ?_, by decide, by decide⟩
  simp [is_person_is_valid]

/-- C2: a connection whose first frame is a `PersonIsUpdate` hello with an
invalid `person_is` publishes nothing onto the broadcast channel (so it
delivers nothing to any subscriber, and folding its deliveries changes no
replica) and terminates with an error outcome. -/
theorem C2_invalid_update_rejected_without_mutation
    (msg : PersonIsUpdateHelloMessage) (subscriberCount : Nat)
    (display_state : DisplayMessage) (loopTrace : List (LoopEvent × Bool))
    (hinv : is_person_is_valid msg.person_is = false) :
    handle_new_stickyproto_connection (.frame (.PersonIsUpdate msg)) subscriberCount
        display_state loopTrace =
      { publishAttempts := [], delivered := [],
        status := .closedErr "PersonIsUpdate message didn\x27t validate; ignoring",
        enteredDisplayerLoop := false, sentFrames := [] } ∧
    ∀ replica : DisplayMessage,
      List.foldl listenerApply replica
        (handle_new_stickyproto_connection (.frame (.PersonIsUpdate msg)) subscriberCount
          display_state loopTrace).delivered = replica := by
  constructor
  · simp [handle_new_stickyproto_connection, hinv]
  · intro replica
    simp [handle_new_stickyproto_connection, hinv]

/-- Witness for C2 at the spec's example: a 25-byte `person_is` is invalid
and the connection is rejected without any mutation. -/
theorem C2_witness :
    is_person_is_valid "aaaaaaaaaaaaaaaaaaaaaaaaa" = false ∧
    handle_new_stickyproto_connection
        (.frame (.PersonIsUpdate { person_is := "aaaaaaaaaaaaaaaaaaaaaaaaa", timestamp := 2 }))
        1 (DisplayMessage.default 0) [] =
      { publishAttempts := [], delivered := [],
        status := .closedErr "PersonIsUpdate message didn\x27t validate; ignoring",
        enteredDisplayerLoop := false, sentFrames := [] } :=
  ⟨by decide,
   (C2_invalid_update_rejected_without_mutation
      { person_is := "aaaaaaaaaaaaaaaaaaaaaaaaa", timestamp := 2 }
      1 (DisplayMessage.default 0) [] (by decide)).1⟩

/-- C3: a connection whose first frame is a valid `PersonIsUpdate` hello
publishes exactly one `SetPersonIs` mutation carrying that `person_is` and
timestamp, then terminates at once: it never enters the displayer send
loop and writes no frames, whatever displayer-loop trace the connection
could have offered. The subscriber-count hypothesis reflects that the
listener loop of `ServeCommand::cli` always holds its own subscription. -/
theorem C3_valid_update_publishes_exactly_once_then_closes
    (msg : PersonIsUpdateHelloMessage) (subscriberCount : Nat)
    (display_state : DisplayMessage) (loopTrace : List (LoopEvent × Bool))
    (hval : is_person_is_valid msg.person_is = true)
    (hsub : 0 < subscriberCount) :
    handle_new_stickyproto_connection (.frame (.PersonIsUpdate msg)) subscriberCount
        display_state loopTrace =
      { publishAttempts := [.SetPersonIs msg], delivered := [.SetPersonIs msg],
        status := .closedOk, enteredDisplayerLoop := false, sentFrames := [] } := by
  simp [handle_new_stickyproto_connection, hval, hsub]

/-- Witness for C3 at the spec's example: the 9-byte "in the lab" update is
accepted, published exactly once, and the connection closes. -/
theorem C3_witness :
    is_person_is_valid "in the lab" = true ∧ 0 < 1 ∧
    handle_new_stickyproto_connection
        (.frame (.PersonIsUpdate { person_is := "in the lab", timestamp := 1 }))
        1 (DisplayMessage.default 0) [(.tick, true)] =
      { publishAttempts := [.SetPersonIs { person_is := "in the lab", timestamp := 1 }],
        delivered := [.SetPersonIs { person_is := "in the lab", timestamp := 1 }],
        status := .closedOk, enteredDisplayerLoop := false, sentFrames := [] } :=
  ⟨by decide, by decide,
   C3_valid_update_publishes_exactly_once_then_closes
     { person_is := "in the lab", timestamp := 1 }
     1 (DisplayMessage.default 0) [(.tick, true)] (by decide) (by decide)⟩

/-- C4: a connection whose first frame fails to decode, or whose stream
ends before any frame arrives, returns a connection-fatal error and
publishes zero mutations; the EOF case carries the source's
"connection dropped before hello?" error. -/
theorem C4_hello_gating_failure_fatal_no_mutation :
    (∀ (err : String) (subscriberCount : Nat) (display_state : DisplayMessage)
        (loopTrace : List (LoopEvent × Bool)),
      handle_new_stickyproto_connection (.decodeError err) subscriberCount
          display_state loopTrace =
        { publishAttempts := [], delivered := [], status := .closedErr err,
          enteredDisplayerLoop := false, sentFrames := [] }) ∧
    (∀ (subscriberCount : Nat) (display_state : DisplayMessage)
        (loopTrace : List (LoopEvent × Bool)),
      handle_new_stickyproto_connection .eof subscriberCount display_state loopTrace =
        { publishAttempts := [], delivered := [],
          status := .closedErr "connection dropped before hello?",
          enteredDisplayerLoop := false, sentFrames := [] }) :=
  ⟨fun _ _ _ _ => rfl, fun _ _ _ => rfl⟩

/-- C5: applying a `SetPersonIs` mutation via `consume_into` overwrites
both `person_is` and `person_is_timestamp` with the mutation's fields, so
the resulting state is exactly the last applied mutation's fields —
independent of the previous state, never a partial mix. -/
theorem C5_consume_into_state_is_last_mutation :
    (∀ (state : DisplayMessage) (msg : PersonIsUpdateHelloMessage),
      (DisplayStateMutation.SetPersonIs msg).consume_into state =
        { person_is := msg.person_is, person_is_timestamp := msg.timestamp }) ∧
    (∀ (state : DisplayMessage) (muts : List DisplayStateMutation)
        (msg : PersonIsUpdateHelloMessage),
      List.foldl listenerApply state (muts ++ [DisplayStateMutation.SetPersonIs msg]) =
        { person_is := msg.person_is, person_is_timestamp := msg.timestamp }) := by
  constructor
  · intro state msg
    rfl
  · intro state muts msg
    simp [List.foldl_append, listenerApply, DisplayStateMutation.consume_into]

/-- When every write in the trace succeeds, the displayer loop's outbound
frames are exactly the spec's prescribed snapshot sequence. -/
theorem displayerLoop_sentFrames_eq_snapshots :
    ∀ (tr : List (LoopEvent × Bool)) (st : DisplayMessage),
      (∀ p ∈ tr, p.2 = true) →
      (displayerLoop st tr).sentFrames = snapshotsInUpdateOrder st (tr.map Prod.fst)
  | [], _, _ => rfl
  | (ev, w) :: rest, st, hw => by
      have hwev : w = true := hw (ev, w) (List.mem_cons_self _ _)
      subst hwev
      have ih := displayerLoop_sentFrames_eq_snapshots rest (loopIterState st ev)
        (fun p hp => hw p (List.mem_cons_of_mem _ hp))
      simp [displayerLoop, snapshotsInUpdateOrder, ih]

/-- Each element of the prescribed snapshot sequence is the fold of the
loop-event effects over the corresponding prefix of events. -/
theorem snapshotsInUpdateOrder_getElem :
    ∀ (evs : List LoopEvent) (st : DisplayMessage) (i : Nat), i < evs.length →
      (snapshotsInUpdateOrder st evs)[i]? =
        some (List.foldl loopIterState st (evs.take (i + 1)))
  | [], _, i, hi => absurd hi (by simp)
  | ev :: rest, st, 0, _ => by
      simp [snapshotsInUpdateOrder]
  | ev :: rest, st, i + 1, hi => by
      have ih := snapshotsInUpdateOrder_getElem rest (loopIterState st ev) i
        (by simpa using Nat.lt_of_succ_lt_succ hi)
      simp [snapshotsInUpdateOrder, ih]

/-- C6: in the displayer send loop, after each iteration's event — a
heartbeat tick or a received mutation, including lag and channel-closed
outcomes — the handler unconditionally sends the current private replica,
and within one connection the outbound snapshots appear strictly in the
order the replica was updated or heartbeat-ticked: the i-th frame sent is
the replica after the first i+1 events. -/
theorem C6_snapshots_sent_in_replica_update_order
    (st : DisplayMessage) (tr : List (LoopEvent × Bool))
    (hw : ∀ p ∈ tr, p.2 = true) :
    (displayerLoop st tr).sentFrames = snapshotsInUpdateOrder st (tr.map Prod.fst) ∧
    ∀ i, i < tr.length →
      (displayerLoop st tr).sentFrames[i]? =
        some (List.foldl loopIterState st ((tr.map Prod.fst).take (i + 1))) := by
  have hmain := displayerLoop_sentFrames_eq_snapshots tr st hw
  refine ⟨hmain, fun i hi => ?_⟩
  rw [hmain]
  exact snapshotsInUpdateOrder_getElem (tr.map Prod.fst) st i (by simpa using hi)

/-- Witness for C6: a heartbeat tick followed by a received mutation yields
exactly the two replica snapshots, in order. -/
theorem C6_witness :
    (∀ p ∈ ([(LoopEvent.tick, true),
             (LoopEvent.recvOk (.SetPersonIs { person_is := "in the lab", timestamp := 5 }), true)] :
            List (LoopEvent × Bool)), p.2 = true) ∧
    (displayerLoop (DisplayMessage.default 0)
        [(LoopEvent.tick, true),
         (LoopEvent.recvOk (.SetPersonIs { person_is := "in the lab", timestamp := 5 }), true)]).sentFrames =
      snapshotsInUpdateOrder (DisplayMessage.default 0)
        [LoopEvent.tick,
         LoopEvent.recvOk (.SetPersonIs { person_is := "in the lab", timestamp := 5 })] :=
  ⟨by decide,
   (C6_snapshots_sent_in_replica_update_order (DisplayMessage.default 0)
      [(LoopEvent.tick, true),
       (LoopEvent.recvOk (.SetPersonIs { person_is := "in the lab", timestamp := 5 }), true)]
      (by decide)).1⟩

/-- C7: a displayer connection's first outbound frame is the snapshot the
listener loop held at accept time — the authoritative copy passed to the
handler, with every mutation the listener had applied folded in — sent on
the loop's first iteration, whose select event is the heartbeat tick that
the interval fires immediately, before any later mutation is processed. -/
theorem C7_displayer_first_frame_is_accept_snapshot
    (now : Timestamp) (muts : List DisplayStateMutation)
    (hello : DisplayHelloMessage) (subscriberCount : Nat)
    (rest : List (LoopEvent × Bool)) :
    (handle_new_stickyproto_connection (.frame (.Display hello)) subscriberCount
        (listenerState now muts) ((.tick, true) :: rest)).sentFrames.head? =
      some (listenerState now muts) := by
  simp [handle_new_stickyproto_connection, displayerLoop, loopIterState]

/-- C8: in the displayer send loop a lag outcome or a channel-closed
outcome is non-fatal: the replica keeps its last-known value unchanged, and
the loop continues — it sends that value and then behaves exactly as it
would on the remaining trace, rather than terminating. -/
theorem C8_lag_and_closed_nonfatal_keep_replica
    (st : DisplayMessage) (rest : List (LoopEvent × Bool)) :
    loopIterState st .recvLag = st ∧
    loopIterState st .recvClosed = st ∧
    displayerLoop st ((.recvLag, true) :: rest) =
      { sentFrames := st :: (displayerLoop st rest).sentFrames,
        replica := (displayerLoop st rest).replica,
        writeErrored := (displayerLoop st rest).writeErrored } ∧
    displayerLoop st ((.recvClosed, true) :: rest) =
      { sentFrames := st :: (displayerLoop st rest).sentFrames,
        replica := (displayerLoop st rest).replica,
        writeErrored := (displayerLoop st rest).writeErrored } := by
  refine ⟨rfl, rfl, ?_, ?_⟩ <;> simp [displayerLoop, loopIterState]

/-- C9: a valid update whose broadcast publish fails because the channel
has no active subscribers terminates the publishing connection with an
error, and delivers nothing — so folding its deliveries leaves every other
connection's replica unchanged, and no other connection is affected. -/
theorem C9_publish_failure_isolated_to_publisher
    (msg : PersonIsUpdateHelloMessage)
    (display_state : DisplayMessage) (loopTrace : List (LoopEvent × Bool))
    (hval : is_person_is_valid msg.person_is = true) :
    handle_new_stickyproto_connection (.frame (.PersonIsUpdate msg)) 0
        display_state loopTrace =
      { publishAttempts := [.SetPersonIs msg], delivered := [],
        status := .closedErr "no receivers for thread update?",
        enteredDisplayerLoop := false, sentFrames := [] } ∧
    ∀ replica : DisplayMessage,
      List.foldl listenerApply replica
        (handle_new_stickyproto_connection (.frame (.PersonIsUpdate msg)) 0
          display_state loopTrace).delivered = replica := by
  constructor
  · simp [handle_new_stickyproto_connection, hval]
  · intro replica
    simp [handle_new_stickyproto_connection, hval]

/-- Witness for C9: a valid update against zero subscribers errors out and
leaves another replica untouched. -/
theorem C9_witness :
    is_person_is_valid "in the lab" = true ∧
    List.foldl listenerApply (DisplayMessage.default 7)
        (handle_new_stickyproto_connection
          (.frame (.PersonIsUpdate { person_is := "in the lab", timestamp := 3 })) 0
          (DisplayMessage.default 0) []).delivered = DisplayMessage.default 7 :=
  ⟨by decide,
   (C9_publish_failure_isolated_to_publisher
      { person_is := "in the lab", timestamp := 3 }
      (DisplayMessage.default 0) [] (by decide)).2 (DisplayMessage.default 7)⟩

/-- Every mutation the hub delivers onto the broadcast channel — through
the client updater path or the webhook path — carries a `person_is` that
passes `is_person_is_valid`. -/
theorem hubPublished_person_is_valid
    (msg : PersonIsUpdateHelloMessage)
    (h : HubPublished (.SetPersonIs msg)) :
    is_person_is_valid msg.person_is = true := by
  rcases h with ⟨fr, subs, st, tr, hm⟩ | ⟨pi, ts, subs, hm⟩
  · cases fr with
    | decodeError err => simp [handle_new_stickyproto_connection] at hm
    | eof => simp [handle_new_stickyproto_connection] at hm
    | frame hello =>
        cases hello with
        | Display d => simp [handle_new_stickyproto_connection] at hm
        | PersonIsUpdate m =>
            by_cases hv : is_person_is_valid m.person_is = true
            · by_cases hs : 0 < subs
              · simp [handle_new_stickyproto_connection, hv, hs] at hm
                rw [hm]
                exact hv
              · simp [handle_new_stickyproto_connection, hv, hs] at hm
            · simp [handle_new_stickyproto_connection, hv] at hm
  · by_cases hv : is_person_is_valid pi = true
    · by_cases hs : 0 < subs
      · simp [webhook_publish_text, hv, hs] at hm
        rw [hm]
        exact hv
      · simp [webhook_publish_text, hv, hs] at hm
    · simp [webhook_publish_text, hv] at hm

/-- Folding hub-published mutations over a valid state keeps the state's
`person_is` valid. -/
theorem foldl_listenerApply_valid
    (muts : List DisplayStateMutation) :
    ∀ s : DisplayMessage, is_person_is_valid s.person_is = true →
      (∀ m ∈ muts, HubPublished m) →
      is_person_is_valid (List.foldl listenerApply s muts).person_is = true := by
  induction muts with
  | nil =>
      intro s hs _
      simpa using hs
  | cons m rest ih =>
      intro s hs hpub
      rw [List.foldl_cons]
      cases m with
      | SetPersonIs msg =>
          have hval := hubPublished_person_is_valid msg (hpub _ (List.mem_cons_self _ _))
          have hstep : is_person_is_valid
              (listenerApply s (.SetPersonIs msg)).person_is = true := by
            simpa [listenerApply, DisplayStateMutation.consume_into] using hval
          exact ih _ hstep (fun m' hm' => hpub m' (List.mem_cons_of_mem _ hm'))

/-- C10: every `SetPersonIs` mutation the hub publishes — via the client
updater path or the webhook path — carries a `person_is` satisfying
`is_person_is_valid`, and the startup default "whereabouts unknown" also
satisfies it; therefore every `DisplayMessage` reachable by folding
hub-published mutations over the default has a `person_is` of UTF-8 byte
length strictly below 23. -/
theorem C10_reachable_states_person_is_under_23_bytes
    (now : Timestamp) (muts : List DisplayStateMutation)
    (hpub : ∀ m ∈ muts, HubPublished m) :
    is_person_is_valid (DisplayMessage.default now).person_is = true ∧
    (listenerState now muts).person_is.utf8ByteSize < 23 := by
  have hdef : is_person_is_valid (DisplayMessage.default now).person_is = true := by
    simp only [DisplayMessage.default]
    decide
  refine ⟨hdef, ?_⟩
  have hvalid := foldl_listenerApply_valid muts (DisplayMessage.default now) hdef hpub
  simpa [is_person_is_valid] using hvalid

/-- Witness for C10: a mutation delivered by a real updater connection is
hub-published, and the listener state after folding it keeps `person_is`
under 23 bytes. -/
theorem C10_witness :
    (∀ m ∈ [DisplayStateMutation.SetPersonIs { person_is := "in the lab", timestamp := 7 }],
      HubPublished m) ∧
    (listenerState 0
        [DisplayStateMutation.SetPersonIs
          { person_is := "in the lab", timestamp := 7 }]).person_is.utf8ByteSize < 23 := by
  have hpub : ∀ m ∈ [DisplayStateMutation.SetPersonIs
      { person_is := "in the lab", timestamp := 7 }], HubPublished m := by
    intro m hm
    rw [List.mem_singleton] at hm
    subst hm
    exact Or.inl ⟨.frame (.PersonIsUpdate { person_is := "in the lab", timestamp := 7 }),
      1, DisplayMessage.default 0, [], by decide⟩
  exact ⟨hpub,
    (C10_reachable_states_person_is_under_23_bytes 0
      [DisplayStateMutation.SetPersonIs { person_is := "in the lab", timestamp := 7 }]
      hpub).2⟩

end RcStickynote
